import Mathlib

/-!
Verification development for the `binance_fix_api` Go repository: a shallow
embedding of the client-side FIX correlation, authentication and
message-translation layer, together with theorems about its decode,
correlation and lifecycle behaviour.

Conventions of the embedding:
* A FIX message body/header is a list of (tag, raw string value) pairs;
  repeating groups are a list of (group tag, list of group instances).
* Go `float64` values produced by decimal parsing are modelled as exact
  rationals (`ℚ`); Go `int64` as `Int`; Go `time.Time` values as the raw
  timestamp string they were parsed from (the zero `time.Time` is `""`).
* Fallible Go functions returning `(T, error)` become `Except String T`,
  the `String` being the error message.
* External collaborators (Go standard library `strconv`, `strings`,
  `ed25519`, `base64`, and the quickfix field parsers) are modelled by
  faithful Lean functions, documented at the definition.
-/

namespace BinanceFix

/-- Numeric value of a list of decimal digit characters (most significant first). -/
def digitsVal (l : List Char) : Nat :=
  l.foldl (fun a c => a * 10 + (c.toNat - 48)) 0

/-- Model of Go `strconv.ParseFloat(s, 64)` (and of the quickfix decimal field
parser) restricted to plain decimal literals `[+-]digits[.digits]`; the value
is kept as an exact rational instead of a rounded binary float. Exponent forms
are out of scope of this development and modelled as parse failures. -/
def parseDecimal (s : String) : Option ℚ :=
  let signSplit : Bool × List Char :=
    match s.data with
    | '-' :: r => (true, r)
    | '+' :: r => (false, r)
    | r => (false, r)
  let neg := signSplit.1
  let l := signSplit.2
  let ip := l.takeWhile Char.isDigit
  let rest := l.drop ip.length
  let val? : Option ℚ :=
    match rest with
    | [] => if ip.isEmpty then none else some (digitsVal ip : ℚ)
    | '.' :: fr =>
        if fr.all Char.isDigit && !(ip.isEmpty && fr.isEmpty) then
          some ((digitsVal ip : ℚ) + (digitsVal fr : ℚ) / (10 : ℚ) ^ fr.length)
        else none
    | _ => none
  val?.map (fun q => if neg then -q else q)

/-- Model of Go `strconv.ParseInt(s, 10, 64)` on in-range inputs:
`[+-]digits`, at least one digit. -/
def parseInt (s : String) : Option Int :=
  match s.data with
  | '-' :: r => if !r.isEmpty && r.all Char.isDigit then some (-(digitsVal r : Int)) else none
  | '+' :: r => if !r.isEmpty && r.all Char.isDigit then some (digitsVal r : Int) else none
  | r => if !r.isEmpty && r.all Char.isDigit then some (digitsVal r : Int) else none

/-- `strconv.ParseFloat` as an `Except`, with a Go-style error message. -/
def parseFloatE (s : String) : Except String ℚ :=
  match parseDecimal s with
  | some q => .ok q
  | none => .error ("strconv.ParseFloat: parsing " ++ s ++ ": invalid syntax")

/-- `strconv.ParseInt` as an `Except`, with a Go-style error message. -/
def parseIntE (s : String) : Except String Int :=
  match parseInt s with
  | some n => .ok n
  | none => .error ("strconv.ParseInt: parsing " ++ s ++ ": invalid syntax")

/-- Model of the quickfix UTCTimestamp field reader: `YYYYMMDD-HH:MM:SS`
optionally followed by a 3, 6 or 9 digit fraction. Only the shape is
checked; the value is the raw string. -/
def isUTCTimestamp (s : String) : Bool :=
  let l := s.data
  let base := l.take 17
  let rest := l.drop 17
  base.length == 17 &&
  (List.range 17).all (fun i =>
    let c := base.getD i ' '
    if i == 8 then c == '-'
    else if i == 11 || i == 14 then c == ':'
    else c.isDigit) &&
  (match rest with
   | [] => true
   | '.' :: ds => ds.all Char.isDigit && (ds.length == 3 || ds.length == 6 || ds.length == 9)
   | _ => false)

/-- Model of Go `time.Parse("20060102-15:04:05.000000", s)`: the base shape
with an exactly-six-digit fraction. -/
def isUTCTimestampMicros (s : String) : Bool :=
  let l := s.data
  let base := l.take 17
  let rest := l.drop 17
  base.length == 17 &&
  (List.range 17).all (fun i =>
    let c := base.getD i ' '
    if i == 8 then c == '-'
    else if i == 11 || i == 14 then c == ':'
    else c.isDigit) &&
  (match rest with
   | '.' :: ds => ds.all Char.isDigit && ds.length == 6
   | _ => false)

/-- Parse a quickfix UTCTimestamp, keeping the raw string as the time value. -/
def parseUTCTimestampE (s : String) : Except String String :=
  if isUTCTimestamp s then .ok s else .error ("invalid UTCTimestamp: " ++ s)

/-- Parse with the microsecond `time.Parse` layout, keeping the raw string. -/
def parseUTCMicrosE (s : String) : Except String String :=
  if isUTCTimestampMicros s then .ok s else .error ("parsing time " ++ s ++ ": invalid format")

/-- Does `s` start with `sub`? (helper for the `strings.Contains` model). -/
def listStartsWith : List Char → List Char → Bool
  | [], _ => true
  | _ :: _, [] => false
  | a :: as, b :: bs => a == b && listStartsWith as bs

/-- Does `s` contain `sub` as a contiguous sublist? -/
def charListContains (sub : List Char) : List Char → Bool
  | [] => sub.isEmpty
  | a :: rest => listStartsWith sub (a :: rest) || charListContains sub rest

/-- Model of Go `strings.Contains(s, sub)`. -/
def goContains (s sub : String) : Bool :=
  charListContains sub.data s.data

/-- ASCII lower-casing of one character. -/
def goCharToLower (c : Char) : Char :=
  if 65 ≤ c.toNat && c.toNat ≤ 90 then Char.ofNat (c.toNat + 32) else c

/-- Model of Go `strings.ToLower` (ASCII case folding, which is all the
keyword matching needs). -/
def goToLower (s : String) : String :=
  String.mk (s.data.map goCharToLower)

/-- Model of Go `strings.Join(elems, sep)`. -/
def stringsJoin (elems : List String) (sep : String) : String :=
  match elems with
  | [] => ""
  | e :: rest => rest.foldl (fun a s => a ++ sep ++ s) e

/-- The standard base64 alphabet, as in Go `encoding/base64.StdEncoding`. -/
def base64Alphabet : List Char :=
  "ABCDEFGHIJKLMNOPQRSTUVWXYZabcdefghijklmnopqrstuvwxyz0123456789+/".data

/-- The base64 digit for a 6-bit value. -/
def b64Char (n : Nat) : Char :=
  base64Alphabet.getD n 'A'

/-- Model of Go `base64.StdEncoding.EncodeToString` over a byte list
(values < 256), with `=` padding. -/
def base64StdEncode : List Nat → List Char
  | [] => []
  | [b1] => [b64Char (b1 / 4), b64Char (b1 % 4 * 16), '=', '=']
  | [b1, b2] => [b64Char (b1 / 4), b64Char (b1 % 4 * 16 + b2 / 16), b64Char (b2 % 16 * 4), '=']
  | b1 :: b2 :: b3 :: rest =>
      b64Char (b1 / 4) :: b64Char (b1 % 4 * 16 + b2 / 16) ::
      b64Char (b2 % 16 * 4 + b3 / 64) :: b64Char (b3 % 64) :: base64StdEncode rest

/-- The FIX SOH field separator `"\x01"` as a string. -/
def sohStr : String := String.mk ['\x01']

/-! ## The FIX message model -/

/-- One instance of a repeating group: its (tag, value) fields. -/
structure FixGroup where
  fields : List (Nat × String)
  deriving DecidableEq, Repr

/-- A FIX message: header and body tag/value lists plus repeating groups,
modelling the quickfix `Message` as far as this client observes it. -/
structure FixMessage where
  header : List (Nat × String) := []
  body : List (Nat × String) := []
  groups : List (Nat × List FixGroup) := []
  deriving DecidableEq, Repr

/-- First value stored under `tag` (quickfix `FieldMap` lookup). -/
def fmGet (l : List (Nat × String)) (tag : Nat) : Option String :=
  (l.find? (fun p => p.1 == tag)).map (fun p => p.2)

/-- quickfix `FieldMap.Has`. -/
def fmHas (l : List (Nat × String)) (tag : Nat) : Bool :=
  (fmGet l tag).isSome

/-- quickfix `FieldMap.Set`: replace any existing value under `tag`. -/
def fmSet (l : List (Nat × String)) (tag : Nat) (v : String) : List (Nat × String) :=
  (l.filter (fun p => p.1 ≠ tag)) ++ [(tag, v)]

/-- The group instances stored under group-count tag `tag`. -/
def groupsGet (gs : List (Nat × List FixGroup)) (tag : Nat) : Option (List FixGroup) :=
  (gs.find? (fun p => p.1 == tag)).map (fun p => p.2)

/-- quickfix `FieldMap.SetGroup`: replace the instances under `tag`. -/
def groupsSet (gs : List (Nat × List FixGroup)) (tag : Nat) (v : List FixGroup) :
    List (Nat × List FixGroup) :=
  (gs.filter (fun p => p.1 ≠ tag)) ++ [(tag, v)]

/-! ## Enumerations (handlers/types.go)

The Go enum types are strings; the `mapped*` Go maps from quickfix wire
values to domain constants become total functions returning the Go map's
zero value `""` on a missing key. -/

abbrev OrderStatus := String
def OrderStatusNew : OrderStatus := "NEW"
def OrderStatusPartiallyFilled : OrderStatus := "PARTIALLY_FILLED"
def OrderStatusFilled : OrderStatus := "FILLED"
def OrderStatusCanceled : OrderStatus := "CANCELED"
def OrderStatusPendingCancel : OrderStatus := "PENDING_CANCEL"
def OrderStatusRejected : OrderStatus := "REJECTED"
def OrderStatusPendingNew : OrderStatus := "PENDING_NEW"
def OrderStatusExpired : OrderStatus := "EXPIRED"

/-- `mappedOrderStatus` lookup (quickfix `OrdStatus` wire values). -/
def mappedOrderStatus (v : String) : OrderStatus :=
  if v = "0" then OrderStatusNew
  else if v = "1" then OrderStatusPartiallyFilled
  else if v = "2" then OrderStatusFilled
  else if v = "4" then OrderStatusCanceled
  else if v = "6" then OrderStatusPendingCancel
  else if v = "8" then OrderStatusRejected
  else if v = "A" then OrderStatusPendingNew
  else if v = "C" then OrderStatusExpired
  else ""

abbrev TimeInForce := String
def TimeInForceGTC : TimeInForce := "GOOD_TILL_CANCEL"
def TimeInForceIOC : TimeInForce := "IMMEDIATE_OR_CANCEL"
def TimeInForceFOK : TimeInForce := "FILL_OR_KILL"

/-- `mappedTimeInForce` lookup. -/
def mappedTimeInForce (v : String) : TimeInForce :=
  if v = "1" then TimeInForceGTC
  else if v = "3" then TimeInForceIOC
  else if v = "4" then TimeInForceFOK
  else ""

abbrev OrderType := String
def OrderTypeMarket : OrderType := "MARKET"
def OrderTypeLimit : OrderType := "LIMIT"
def OrderTypeStop : OrderType := "STOP"
def OrderTypeStopLimit : OrderType := "STOP_LIMIT"

/-- `mappedOrderType` lookup. -/
def mappedOrderType (v : String) : OrderType :=
  if v = "1" then OrderTypeMarket
  else if v = "2" then OrderTypeLimit
  else if v = "3" then OrderTypeStop
  else if v = "4" then OrderTypeStopLimit
  else ""

abbrev SideType := String
def SideTypeBuy : SideType := "BUY"
def SideTypeSell : SideType := "SELL"

/-- `mappedSideType` lookup. -/
def mappedSideType (v : String) : SideType :=
  if v = "1" then SideTypeBuy
  else if v = "2" then SideTypeSell
  else ""

/-! ## Execution report decoding (handlers/execution_report.go) -/

def tagClOrdID : Nat := 11
def tagCumQty : Nat := 14
def tagOrderID : Nat := 37
def tagOrderQty : Nat := 38
def tagOrdStatus : Nat := 39
def tagOrdType : Nat := 40
def tagPrice : Nat := 44
def tagSide : Nat := 54
def tagSymbol : Nat := 55
def tagText : Nat := 58
def tagTimeInForce : Nat := 59
def tagTransactTime : Nat := 60
def tagMaxFloor : Nat := 111
def tagCumQuoteQty : Nat := 381
def tagOrderCreationTime : Nat := 6635
def tagWorkingTime : Nat := 636

/-- `Order` (handlers/execution_report.go); `Type` is spelled `Type'`
because `Type` is reserved in Lean. -/
structure Order where
  Symbol : String
  OrderID : Int
  ClientOrderID : String
  Price : ℚ
  OrderQty : ℚ
  CumQty : ℚ
  CumQuoteQty : ℚ
  Status : OrderStatus
  TimeInForce : TimeInForce
  Type' : OrderType
  Side : SideType
  IcebergQuantity : ℚ
  TransactTime : String
  OrderCreationTime : String
  WorkingTime : String
  deriving DecidableEq, Repr

/-- `getText`: optional tag 58, absent means `""`, never an error. -/
def getText (m : FixMessage) : Except String String :=
  match fmGet m.body tagText with
  | some v => .ok v
  | none => .ok ""

/-- `getSymbol`: required tag 55, absent is a quickfix field-missing error. -/
def getSymbol (m : FixMessage) : Except String String :=
  match fmGet m.body tagSymbol with
  | some v => .ok v
  | none => .error "Conditionally Required Field Missing (55)"

/-- `getOrderID`: reads tag 37 if present (else the zero value `""`) and
always runs `strconv.ParseInt` on the result. -/
def getOrderID (m : FixMessage) : Except String Int :=
  parseIntE ((fmGet m.body tagOrderID).getD "")

/-- `getClientOrderID`: optional tag 11, absent means `""`. -/
def getClientOrderID (m : FixMessage) : Except String String :=
  match fmGet m.body tagClOrdID with
  | some v => .ok v
  | none => .ok ""

/-- `getOrderStatus`: required tag 39, mapped through `mappedOrderStatus`. -/
def getOrderStatus (m : FixMessage) : Except String OrderStatus :=
  match fmGet m.body tagOrdStatus with
  | some v => .ok (mappedOrderStatus v)
  | none => .error "Conditionally Required Field Missing (39)"

/-- `getOrdType`: required tag 40, mapped through `mappedOrderType`. -/
def getOrdType (m : FixMessage) : Except String OrderType :=
  match fmGet m.body tagOrdType with
  | some v => .ok (mappedOrderType v)
  | none => .error "Conditionally Required Field Missing (40)"

/-- `getSide`: required tag 54, mapped through `mappedSideType`. -/
def getSide (m : FixMessage) : Except String SideType :=
  match fmGet m.body tagSide with
  | some v => .ok (mappedSideType v)
  | none => .error "Conditionally Required Field Missing (54)"

/-- `getTimeInForce`: optional tag 59, mapped; absent means the zero value. -/
def getTimeInForce (m : FixMessage) : Except String TimeInForce :=
  match fmGet m.body tagTimeInForce with
  | some v => .ok (mappedTimeInForce v)
  | none => .ok ""

/-- `getPrice`: optional decimal tag 44, absent decodes to 0. -/
def getPrice (m : FixMessage) : Except String ℚ :=
  match fmGet m.body tagPrice with
  | some s => parseFloatE s
  | none => .ok 0

/-- `getOrderQty`: optional decimal tag 38, absent decodes to 0. -/
def getOrderQty (m : FixMessage) : Except String ℚ :=
  match fmGet m.body tagOrderQty with
  | some s => parseFloatE s
  | none => .ok 0

/-- `getCumQty`: optional decimal tag 14, absent decodes to 0. -/
def getCumQty (m : FixMessage) : Except String ℚ :=
  match fmGet m.body tagCumQty with
  | some s => parseFloatE s
  | none => .ok 0

/-- `getCumQuoteQty`: optional tag 381 via `GetString` + `ParseFloat`,
absent decodes to 0. -/
def getCumQuoteQty (m : FixMessage) : Except String ℚ :=
  match fmGet m.body tagCumQuoteQty with
  | some s => parseFloatE s
  | none => .ok 0

/-- `getMaxFloor`: optional decimal tag 111, absent decodes to 0. -/
def getMaxFloor (m : FixMessage) : Except String ℚ :=
  match fmGet m.body tagMaxFloor with
  | some s => parseFloatE s
  | none => .ok 0

/-- `getTransactTime`: optional tag 60, absent is the zero time. -/
def getTransactTime (m : FixMessage) : Except String String :=
  match fmGet m.body tagTransactTime with
  | some s => parseUTCTimestampE s
  | none => .ok ""

/-- `getOrderCreationTime`: optional tag 6635, microsecond layout. -/
def getOrderCreationTime (m : FixMessage) : Except String String :=
  match fmGet m.body tagOrderCreationTime with
  | some s => parseUTCMicrosE s
  | none => .ok ""

/-- `getWorkingTime`: optional tag 636, microsecond layout. -/
def getWorkingTime (m : FixMessage) : Except String String :=
  match fmGet m.body tagWorkingTime with
  | some s => parseUTCMicrosE s
  | none => .ok ""

/-- `DecodeExecutionReport`: parse a FIX ExecutionReport into an `Order`,
surfacing a Rejected status with a non-empty tag-58 reason as an error. -/
def DecodeExecutionReport (m : FixMessage) : Except String Order := do
  let status ← getOrderStatus m
  if status = OrderStatusRejected then
    let reason ← getText m
    if reason ≠ "" then
      throw reason
  let symbol ← getSymbol m
  let orderID ← getOrderID m
  let clientOrderID ← getClientOrderID m
  let price ← getPrice m
  let orderQty ← getOrderQty m
  let cumQty ← getCumQty m
  let cumQuoteQty ← getCumQuoteQty m
  let timeInForce ← getTimeInForce m
  let orderType ← getOrdType m
  let side ← getSide m
  let maxFloor ← getMaxFloor m
  let transactTime ← getTransactTime m
  let orderCreationTime ← getOrderCreationTime m
  let workingTime ← getWorkingTime m
  return { Symbol := symbol
           OrderID := orderID
           ClientOrderID := clientOrderID
           Price := price
           OrderQty := orderQty
           CumQty := cumQty
           CumQuoteQty := cumQuoteQty
           Status := status
           TimeInForce := timeInForce
           Type' := orderType
           Side := side
           IcebergQuantity := maxFloor
           TransactTime := transactTime
           OrderCreationTime := orderCreationTime
           WorkingTime := workingTime }

/-! ## Trade stream decoding (handlers, trade message file) -/

def tagLastPx : Nat := 31
def tagLastQty : Nat := 32
def tagMDEntryPx : Nat := 270
def tagMDEntrySize : Nat := 271
def tagTradeReportID : Nat := 571
def tagTradeID : Nat := 1003
def tagBuyerOrderID : Nat := 6010
def tagSellerOrderID : Nat := 6011
def tagIsBuyerMaker : Nat := 6012

/-- `Trade` from the market data stream. -/
structure Trade where
  Symbol : String
  TradeID : Int
  Price : ℚ
  Quantity : ℚ
  TradeTime : String
  BuyerOrderID : Int
  SellerOrderID : Int
  IsBuyerMaker : Bool
  deriving DecidableEq, Repr

/-- `getTradeSymbol`: required tag 55. -/
def getTradeSymbol (m : FixMessage) : Except String String :=
  match fmGet m.body tagSymbol with
  | some v => .ok v
  | none => .error "Conditionally Required Field Missing (55)"

/-- `getTradeID`: primary tag 1003, fallback tag 571, both absent errors. -/
def getTradeID (m : FixMessage) : Except String Int :=
  match fmGet m.body tagTradeID with
  | some s => parseIntE s
  | none =>
    match fmGet m.body tagTradeReportID with
    | some s => parseIntE s
    | none => .error "trade ID not found"

/-- `getTradePrice`: primary tag 270, fallback tag 31, both absent errors. -/
def getTradePrice (m : FixMessage) : Except String ℚ :=
  match fmGet m.body tagMDEntryPx with
  | some s => parseFloatE s
  | none =>
    match fmGet m.body tagLastPx with
    | some s => parseFloatE s
    | none => .error "trade price not found"

/-- `getTradeQuantity`: primary tag 271, fallback tag 32, both absent errors. -/
def getTradeQuantity (m : FixMessage) : Except String ℚ :=
  match fmGet m.body tagMDEntrySize with
  | some s => parseFloatE s
  | none =>
    match fmGet m.body tagLastQty with
    | some s => parseFloatE s
    | none => .error "trade quantity not found"

/-- `getTradeTime`: tag 60 only, absent is a hard error with no fallback. -/
def getTradeTime (m : FixMessage) : Except String String :=
  match fmGet m.body tagTransactTime with
  | some s => parseUTCTimestampE s
  | none => .error "trade time not found"

/-- `getBuyerOrderID`: optional venue tag 6010, absent decodes to 0. -/
def getBuyerOrderID (m : FixMessage) : Except String Int :=
  match fmGet m.body tagBuyerOrderID with
  | some s => parseIntE s
  | none => .ok 0

/-- `getSellerOrderID`: optional venue tag 6011, absent decodes to 0. -/
def getSellerOrderID (m : FixMessage) : Except String Int :=
  match fmGet m.body tagSellerOrderID with
  | some s => parseIntE s
  | none => .ok 0

/-- `getIsBuyerMaker`: optional venue tag 6012, truthy strings. -/
def getIsBuyerMaker (m : FixMessage) : Except String Bool :=
  match fmGet m.body tagIsBuyerMaker with
  | some s => .ok (s = "true" || s = "Y" || s = "1")
  | none => .ok false

/-- The Go `v, _ := f(msg)` pattern: keep the value, drop the error (the
Go getters return the zero value alongside any error). -/
def orZero {α : Type} (z : α) : Except String α → α
  | .ok v => v
  | .error _ => z

/-- `DecodeTradeMessage`: parse a FIX market-data message into a `Trade`;
the venue-specific ids and maker flag ignore errors. -/
def DecodeTradeMessage (m : FixMessage) : Except String Trade := do
  let symbol ← getTradeSymbol m
  let tradeID ← getTradeID m
  let price ← getTradePrice m
  let quantity ← getTradeQuantity m
  let tradeTime ← getTradeTime m
  let buyerOrderID := orZero 0 (getBuyerOrderID m)
  let sellerOrderID := orZero 0 (getSellerOrderID m)
  let isBuyerMaker := orZero false (getIsBuyerMaker m)
  return { Symbol := symbol
           TradeID := tradeID
           Price := price
           Quantity := quantity
           TradeTime := tradeTime
           BuyerOrderID := buyerOrderID
           SellerOrderID := sellerOrderID
           IsBuyerMaker := isBuyerMaker }

/-! ## Logon authentication (crypto.go) -/

/-- quickfix `enum.MsgType_LOGON`. -/
def MsgType_LOGON : String := "A"

/-- `GetLogonRawData`: sign the canonical logon payload and base64 it.
`ed25519Sign` models Go `ed25519.Sign` as an abstract deterministic
function of the private key bytes and the payload string. -/
def GetLogonRawData (ed25519Sign : List Nat → String → List Nat)
    (privateKey : List Nat) (senderCompID targetCompID sendingTime : String) : String :=
  let method := MsgType_LOGON
  let msgSeqNum := "1"
  let payload := stringsJoin [method, senderCompID, targetCompID, msgSeqNum, sendingTime] sohStr
  let data := ed25519Sign privateKey payload
  String.mk (base64StdEncode data)

/-! ## Client state, correlation and subscriptions (client.go, call file,
trade subscription file) -/

/-- `ErrClosed` (Go `errors.New("connection is closed")`). -/
def ErrClosed : String := "connection is closed"

/-- A pending `call`: the outbound request message. The single-slot done
channel is modelled separately where `wait` is analysed. -/
structure Call where
  request : FixMessage
  deriving DecidableEq

/-- `waiter`: the caller-side handle on a pending call. -/
structure Waiter where
  call : Call
  deriving DecidableEq

/-- The client state visible to the correlation layer: the authorized flag,
the pending-call map keyed by correlation id, and the session identity used
for headers and role checks. -/
structure ClientState where
  isConnected : Bool
  pending : String → Option Call
  beginString : String
  targetCompID : String
  senderCompID : String

def tagBeginString : Nat := 8
def tagSenderCompID : Nat := 49
def tagSendingTime : Nat := 52
def tagTargetCompID : Nat := 56

/-- `addCommonHeaders`: stamp begin-string, comp ids and sending time
(`now`, Go `time.Now().UTC()`) into the message header. -/
def addCommonHeaders (c : ClientState) (now : String) (m : FixMessage) : FixMessage :=
  { m with header :=
      fmSet (fmSet (fmSet (fmSet m.header tagBeginString c.beginString)
        tagTargetCompID c.targetCompID) tagSenderCompID c.senderCompID) tagSendingTime now }

/-- Go map insert `p[id] = cc`. -/
def mapInsert (p : String → Option Call) (id : String) (cc : Call) : String → Option Call :=
  fun k => if k = id then some cc else p k

/-- Go map `delete(p, id)`. -/
def mapErase (p : String → Option Call) (id : String) : String → Option Call :=
  fun k => if k = id then none else p k

/-- `send`: register a pending call under `id` and transmit. `transmit`
models the external `quickfix.Send` as a function of the outgoing message
(`none` = success, `some e` = the error it returned). A failed
transmission rolls the registration back. -/
def send (c : ClientState) (id : String) (m : FixMessage) (now : String)
    (transmit : FixMessage → Option String) : Except String Waiter × ClientState :=
  if c.isConnected = false then
    (.error ErrClosed, c)
  else
    let cc : Call := { request := addCommonHeaders c now m }
    let c1 := { c with pending := mapInsert c.pending id cc }
    match transmit cc.request with
    | some e => (.error e, { c1 with pending := mapErase c1.pending id })
    | none => (.ok { call := cc }, c1)

/-- `SendWithoutResponse`: transmit without registering a pending call. -/
def SendWithoutResponse (c : ClientState) (m : FixMessage) (now : String)
    (transmit : FixMessage → Option String) : Except String Unit × ClientState :=
  if c.isConnected = false then
    (.error ErrClosed, c)
  else
    match transmit (addCommonHeaders c now m) with
    | some e => (.error e, c)
    | none => (.ok (), c)

/-! ## Trade subscription requests (trade subscription file) -/

def tagMsgType : Nat := 35
def tagNoRelatedSym : Nat := 146
def tagMDReqID : Nat := 262
def tagSubscriptionRequestType : Nat := 263
def tagMarketDepth : Nat := 264
def tagNoMDEntryTypes : Nat := 267
def tagMDEntryType : Nat := 269

/-- quickfix `enum.MsgType_MARKET_DATA_REQUEST`. -/
def MsgType_MARKET_DATA_REQUEST : String := "V"
/-- quickfix `enum.SubscriptionRequestType_SNAPSHOT_PLUS_UPDATES`. -/
def SubscriptionRequestType_SNAPSHOT_PLUS_UPDATES : String := "1"
/-- quickfix `enum.SubscriptionRequestType_DISABLE_PREVIOUS_SNAPSHOT_PLUS_UPDATE_REQUEST`. -/
def SubscriptionRequestType_DISABLE : String := "2"
/-- quickfix `enum.MDEntryType_TRADE`. -/
def MDEntryType_TRADE : String := "2"

/-- The market-data request message built by `SubscribeToTrades`.
`nowNano` is the `time.Now().UnixNano()` used for the request id. -/
def subscribeToTradesMessage (nowNano : Int) (symbols : List String) : FixMessage :=
  let mdReqID := "MDR_" ++ toString nowNano
  { header := fmSet [] tagMsgType MsgType_MARKET_DATA_REQUEST
    body := fmSet (fmSet (fmSet [] tagMDReqID mdReqID)
        tagSubscriptionRequestType SubscriptionRequestType_SNAPSHOT_PLUS_UPDATES)
      tagMarketDepth "1"
    groups := groupsSet
      (groupsSet [] tagNoRelatedSym (symbols.map (fun s => { fields := [(tagSymbol, s)] })))
      tagNoMDEntryTypes [{ fields := [(tagMDEntryType, MDEntryType_TRADE)] }] }

/-- The market-data request message built by `UnsubscribeFromTrades`. -/
def unsubscribeFromTradesMessage (nowNano : Int) (symbols : List String) : FixMessage :=
  let mdReqID := "MDR_UNSUB_" ++ toString nowNano
  { header := fmSet [] tagMsgType MsgType_MARKET_DATA_REQUEST
    body := fmSet (fmSet [] tagMDReqID mdReqID)
      tagSubscriptionRequestType SubscriptionRequestType_DISABLE
    groups := groupsSet [] tagNoRelatedSym
      (symbols.map (fun s => { fields := [(tagSymbol, s)] })) }

/-- `Client.SubscribeToTrades`: build the request and fire it without
registering a pending call. -/
def SubscribeToTrades (c : ClientState) (nowNano : Int) (symbols : List String)
    (now : String) (transmit : FixMessage → Option String) :
    Except String Unit × ClientState :=
  SendWithoutResponse c (subscribeToTradesMessage nowNano symbols) now transmit

/-- `Client.UnsubscribeFromTrades`: build the request and fire it without
registering a pending call. -/
def UnsubscribeFromTrades (c : ClientState) (nowNano : Int) (symbols : List String)
    (now : String) (transmit : FixMessage → Option String) :
    Except String Unit × ClientState :=
  SendWithoutResponse c (unsubscribeFromTradesMessage nowNano symbols) now transmit

/-- Decode the repeated symbol group (tag 146, one tag-55 field per
instance) of a market-data request, as the round-trip property reads it. -/
def collectSymbols : List FixGroup → Option (List String)
  | [] => some []
  | g :: rest =>
    match fmGet g.fields tagSymbol, collectSymbols rest with
    | some s, some l => some (s :: l)
    | _, _ => none

/-- The list of symbols carried by the message's tag-146 group, in order. -/
def decodeSymbolGroup (m : FixMessage) : Option (List String) :=
  match groupsGet m.groups tagNoRelatedSym with
  | some gs => collectSymbols gs
  | none => none

/-! ## News handling (client.go `handleNewsMessage`) -/

def tagHeadline : Nat := 148

/-- The events `handleNewsMessage` can publish on the emitter. -/
inductive NewsEvent where
  | maintenance (headline text : String)
  | reconnectNeeded
  deriving DecidableEq, Repr

/-- `handleNewsMessage`: keyword-match headline/body and publish the
maintenance event, plus a reconnect-needed event on market-data sessions
(sender id containing `"BMD"`). Returns the published events in order. -/
def handleNewsMessage (senderCompID : String) (m : FixMessage) : List NewsEvent :=
  let headline := (fmGet m.body tagHeadline).getD ""
  let newsText := (fmGet m.body tagText).getD ""
  let isMaintenanceNews :=
    goContains (goToLower headline) "maintenance" ||
    goContains (goToLower newsText) "maintenance" ||
    goContains (goToLower newsText) "reconnect"
  if isMaintenanceNews then
    NewsEvent.maintenance headline newsText ::
      (if goContains senderCompID "BMD" then [NewsEvent.reconnectNeeded] else [])
  else []

/-! ## `waiter.wait` (call file)

The Go `select` over the call's done channel and the context is modelled
as a relation on possible outcomes: an arm can be taken only when it is
ready, and `wait` blocks exactly when no arm is ready. -/

/-- State of the single-slot `done` channel of a pending call. -/
inductive DoneChan where
  /-- nothing sent and not closed: the response has not arrived -/
  | empty
  /-- channel closed: reads yield `ok = false` -/
  | closed
  /-- a resolution was sent: `none` = success, `some e` = error -/
  | ready (e : Option String)
  deriving DecidableEq, Repr

/-- A possible return value of `wait`. -/
inductive WaitRes where
  | ok (m : FixMessage)
  | err (e : String)
  deriving DecidableEq, Repr

/-- `waitCanReturn response d ctxDone ctxErr r`: the Go `select` in
`waiter.wait` can return `r`, given the done-channel state `d`, the
stored response message, and whether the context's done channel is ready
(with `ctxErr` the context's error). `wait` blocks exactly when no `r`
is possible. -/
def waitCanReturn (response : FixMessage) (d : DoneChan) (ctxDone : Bool)
    (ctxErr : String) (r : WaitRes) : Bool :=
  (match d with
   | .empty => false
   | .closed => r == .err ErrClosed
   | .ready none => r == .ok response
   | .ready (some e) => r == .err e) ||
  (ctxDone && r == .err ctxErr)

/-! ## Theorems -/

/-- C1: for every inbound execution-report message whose order-status field
decodes to Rejected and whose free-text reason tag (58) is present with a
non-empty value, `DecodeExecutionReport` returns an error whose message is
that reason text and never returns a populated `Order` value. -/
theorem decodeExecutionReport_rejected_nonempty_reason (m : FixMessage) (r : String)
    (hstatus : getOrderStatus m = .ok OrderStatusRejected)
    (hr : fmGet m.body tagText = some r) (hne : r ≠ "") :
    DecodeExecutionReport m = .error r := by
  simp [DecodeExecutionReport, hstatus, getText, hr, hne, Bind.bind, Except.bind]

/-- C1 witness: a concrete rejected report with reason text decodes to that
error. -/
theorem decodeExecutionReport_rejected_nonempty_reason_witness :
    DecodeExecutionReport { body := [(39, "8"), (58, "Account has insufficient balance"),
      (55, "BTCUSDT")] } = .error "Account has insufficient balance" :=
  decodeExecutionReport_rejected_nonempty_reason
    { body := [(39, "8"), (58, "Account has insufficient balance"), (55, "BTCUSDT")] }
    "Account has insufficient balance" rfl rfl (by decide)

/-- C10: for every inbound execution-report whose status decodes to Rejected
but whose free-text reason is absent or empty (so `getText` yields `""`),
`DecodeExecutionReport` does not return a rejection error: it proceeds to
the remaining fields and, when they all decode, returns a populated `Order`
whose `Status` is Rejected. -/
theorem decodeExecutionReport_rejected_empty_reason (m : FixMessage)
    (hstatus : getOrderStatus m = .ok OrderStatusRejected)
    (htext : getText m = .ok "")
    (sym : String) (hsym : getSymbol m = .ok sym)
    (oid : Int) (hoid : getOrderID m = .ok oid)
    (coid : String) (hcoid : getClientOrderID m = .ok coid)
    (p : ℚ) (hp : getPrice m = .ok p)
    (oq : ℚ) (hoq : getOrderQty m = .ok oq)
    (cq : ℚ) (hcq : getCumQty m = .ok cq)
    (cqq : ℚ) (hcqq : getCumQuoteQty m = .ok cqq)
    (tif : TimeInForce) (htif : getTimeInForce m = .ok tif)
    (ot : OrderType) (hot : getOrdType m = .ok ot)
    (sd : SideType) (hsd : getSide m = .ok sd)
    (mf : ℚ) (hmf : getMaxFloor m = .ok mf)
    (tt : String) (htt : getTransactTime m = .ok tt)
    (oct : String) (hoct : getOrderCreationTime m = .ok oct)
    (wt : String) (hwt : getWorkingTime m = .ok wt) :
    DecodeExecutionReport m = .ok
      { Symbol := sym, OrderID := oid, ClientOrderID := coid, Price := p,
        OrderQty := oq, CumQty := cq, CumQuoteQty := cqq,
        Status := OrderStatusRejected, TimeInForce := tif, Type' := ot,
        Side := sd, IcebergQuantity := mf, TransactTime := tt,
        OrderCreationTime := oct, WorkingTime := wt } := by
  simp [DecodeExecutionReport, hstatus, htext, hsym, hoid, hcoid, hp, hoq, hcq,
    hcqq, htif, hot, hsd, hmf, htt, hoct, hwt, Bind.bind, Except.bind,
    Pure.pure, Except.pure]

/-- C10 witness: a concrete rejected report without a reason decodes to a
populated `Order` with Rejected status. -/
theorem decodeExecutionReport_rejected_empty_reason_witness :
    DecodeExecutionReport { body := [(39, "8"), (55, "BTCUSDT"), (37, "123"),
      (40, "2"), (54, "1")] } = .ok
      { Symbol := "BTCUSDT", OrderID := 123, ClientOrderID := "", Price := 0,
        OrderQty := 0, CumQty := 0, CumQuoteQty := 0,
        Status := OrderStatusRejected, TimeInForce := "", Type' := OrderTypeLimit,
        Side := SideTypeBuy, IcebergQuantity := 0, TransactTime := "",
        OrderCreationTime := "", WorkingTime := "" } :=
  decodeExecutionReport_rejected_empty_reason
    { body := [(39, "8"), (55, "BTCUSDT"), (37, "123"), (40, "2"), (54, "1")] }
    rfl rfl "BTCUSDT" rfl 123 rfl "" rfl 0 rfl 0 rfl 0 rfl 0 rfl
    "" rfl OrderTypeLimit rfl SideTypeBuy rfl 0 rfl "" rfl "" rfl "" rfl

/-- C8: in execution-report decoding, an absent optional price/quantity tag
(44 price, 38 order qty, 14 cum qty, 381 cum notional, 111 iceberg) decodes
to zero rather than an error, and a status/side/order-type/time-in-force
value outside the known enumeration set decodes to the enum's zero value
`""` rather than an error. -/
theorem executionReport_soft_defaults (m : FixMessage) :
    (fmGet m.body tagPrice = none → getPrice m = .ok 0) ∧
    (fmGet m.body tagOrderQty = none → getOrderQty m = .ok 0) ∧
    (fmGet m.body tagCumQty = none → getCumQty m = .ok 0) ∧
    (fmGet m.body tagCumQuoteQty = none → getCumQuoteQty m = .ok 0) ∧
    (fmGet m.body tagMaxFloor = none → getMaxFloor m = .ok 0) ∧
    (∀ v, fmGet m.body tagOrdStatus = some v →
      v ∉ (["0", "1", "2", "4", "6", "8", "A", "C"] : List String) →
      getOrderStatus m = .ok "") ∧
    (∀ v, fmGet m.body tagSide = some v →
      v ∉ (["1", "2"] : List String) → getSide m = .ok "") ∧
    (∀ v, fmGet m.body tagOrdType = some v →
      v ∉ (["1", "2", "3", "4"] : List String) → getOrdType m = .ok "") ∧
    (∀ v, fmGet m.body tagTimeInForce = some v →
      v ∉ (["1", "3", "4"] : List String) → getTimeInForce m = .ok "") := by
  refine ⟨fun h => by simp [getPrice, h], fun h => by simp [getOrderQty, h],
    fun h => by simp [getCumQty, h], fun h => by simp [getCumQuoteQty, h],
    fun h => by simp [getMaxFloor, h], ?_, ?_, ?_, ?_⟩
  · intro v hv hmem
    simp only [List.mem_cons, List.not_mem_nil, or_false, not_or] at hmem
    obtain ⟨h0, h1, h2, h4, h6, h8, hA, hC⟩ := hmem
    simp [getOrderStatus, hv, mappedOrderStatus, h0, h1, h2, h4, h6, h8, hA, hC]
  · intro v hv hmem
    simp only [List.mem_cons, List.not_mem_nil, or_false, not_or] at hmem
    obtain ⟨h1, h2⟩ := hmem
    simp [getSide, hv, mappedSideType, h1, h2]
  · intro v hv hmem
    simp only [List.mem_cons, List.not_mem_nil, or_false, not_or] at hmem
    obtain ⟨h1, h2, h3, h4⟩ := hmem
    simp [getOrdType, hv, mappedOrderType, h1, h2, h3, h4]
  · intro v hv hmem
    simp only [List.mem_cons, List.not_mem_nil, or_false, not_or] at hmem
    obtain ⟨h1, h3, h4⟩ := hmem
    simp [getTimeInForce, hv, mappedTimeInForce, h1, h3, h4]

/-- C8 witness: on a report with no optional numeric tags and out-of-set
enum values, every soft default fires. -/
theorem executionReport_soft_defaults_witness :
    getPrice { body := [(39, "Z"), (54, "9"), (40, "9"), (59, "9")] } = .ok 0 ∧
    getOrderQty { body := [(39, "Z"), (54, "9"), (40, "9"), (59, "9")] } = .ok 0 ∧
    getCumQty { body := [(39, "Z"), (54, "9"), (40, "9"), (59, "9")] } = .ok 0 ∧
    getCumQuoteQty { body := [(39, "Z"), (54, "9"), (40, "9"), (59, "9")] } = .ok 0 ∧
    getMaxFloor { body := [(39, "Z"), (54, "9"), (40, "9"), (59, "9")] } = .ok 0 ∧
    getOrderStatus { body := [(39, "Z"), (54, "9"), (40, "9"), (59, "9")] } = .ok "" ∧
    getSide { body := [(39, "Z"), (54, "9"), (40, "9"), (59, "9")] } = .ok "" ∧
    getOrdType { body := [(39, "Z"), (54, "9"), (40, "9"), (59, "9")] } = .ok "" ∧
    getTimeInForce { body := [(39, "Z"), (54, "9"), (40, "9"), (59, "9")] } = .ok "" :=
  ⟨(executionReport_soft_defaults _).1 rfl,
   (executionReport_soft_defaults _).2.1 rfl,
   (executionReport_soft_defaults _).2.2.1 rfl,
   (executionReport_soft_defaults _).2.2.2.1 rfl,
   (executionReport_soft_defaults _).2.2.2.2.1 rfl,
   (executionReport_soft_defaults _).2.2.2.2.2.1 "Z" rfl (by decide),
   (executionReport_soft_defaults _).2.2.2.2.2.2.1 "9" rfl (by decide),
   (executionReport_soft_defaults _).2.2.2.2.2.2.2.1 "9" rfl (by decide),
   (executionReport_soft_defaults _).2.2.2.2.2.2.2.2 "9" rfl (by decide)⟩

/-- A successful `DecodeTradeMessage` needs every required getter to have
succeeded (helper for the fallback-absence claims). -/
theorem decodeTradeMessage_ok_getters (m : FixMessage) (t : Trade)
    (h : DecodeTradeMessage m = .ok t) :
    (getTradeSymbol m).isOk = true ∧ (getTradeID m).isOk = true ∧
    (getTradePrice m).isOk = true ∧ (getTradeQuantity m).isOk = true ∧
    (getTradeTime m).isOk = true := by
  unfold DecodeTradeMessage at h
  rcases h1 : getTradeSymbol m with e | s <;> rw [h1] at h <;>
    simp [Bind.bind, Except.bind] at h
  rcases h2 : getTradeID m with e | v <;> rw [h2] at h <;>
    simp [Bind.bind, Except.bind] at h
  rcases h3 : getTradePrice m with e | p <;> rw [h3] at h <;>
    simp [Bind.bind, Except.bind] at h
  rcases h4 : getTradeQuantity m with e | q <;> rw [h4] at h <;>
    simp [Bind.bind, Except.bind] at h
  rcases h5 : getTradeTime m with e | tm <;> rw [h5] at h <;>
    simp [Bind.bind, Except.bind] at h
  exact ⟨rfl, rfl, rfl, rfl, rfl⟩

/-- C4: trade-tick decoding resolves price from primary tag 270 with
fallback tag 31 consulted only when 270 is absent, quantity from 271 with
fallback 32, trade id from 1003 with fallback 571; when both tags of a
pair are absent the decode fails, and an absent trade-time tag 60 fails
with no fallback consulted. -/
theorem decodeTradeMessage_fallbacks (m : FixMessage) :
    (∀ s, fmGet m.body tagMDEntryPx = some s → getTradePrice m = parseFloatE s) ∧
    (∀ s, fmGet m.body tagMDEntryPx = none → fmGet m.body tagLastPx = some s →
      getTradePrice m = parseFloatE s) ∧
    (fmGet m.body tagMDEntryPx = none → fmGet m.body tagLastPx = none →
      getTradePrice m = .error "trade price not found" ∧
      ∀ t, DecodeTradeMessage m ≠ .ok t) ∧
    (∀ s, fmGet m.body tagMDEntrySize = some s → getTradeQuantity m = parseFloatE s) ∧
    (∀ s, fmGet m.body tagMDEntrySize = none → fmGet m.body tagLastQty = some s →
      getTradeQuantity m = parseFloatE s) ∧
    (fmGet m.body tagMDEntrySize = none → fmGet m.body tagLastQty = none →
      getTradeQuantity m = .error "trade quantity not found" ∧
      ∀ t, DecodeTradeMessage m ≠ .ok t) ∧
    (∀ s, fmGet m.body tagTradeID = some s → getTradeID m = parseIntE s) ∧
    (∀ s, fmGet m.body tagTradeID = none → fmGet m.body tagTradeReportID = some s →
      getTradeID m = parseIntE s) ∧
    (fmGet m.body tagTradeID = none → fmGet m.body tagTradeReportID = none →
      getTradeID m = .error "trade ID not found" ∧
      ∀ t, DecodeTradeMessage m ≠ .ok t) ∧
    (fmGet m.body tagTransactTime = none →
      getTradeTime m = .error "trade time not found" ∧
      ∀ t, DecodeTradeMessage m ≠ .ok t) := by
  refine ⟨fun s hs => by simp [getTradePrice, hs],
    fun s h270 h31 => by simp [getTradePrice, h270, h31],
    fun h270 h31 => ⟨by simp [getTradePrice, h270, h31], ?_⟩,
    fun s hs => by simp [getTradeQuantity, hs],
    fun s h271 h32 => by simp [getTradeQuantity, h271, h32],
    fun h271 h32 => ⟨by simp [getTradeQuantity, h271, h32], ?_⟩,
    fun s hs => by simp [getTradeID, hs],
    fun s h1003 h571 => by simp [getTradeID, h1003, h571],
    fun h1003 h571 => ⟨by simp [getTradeID, h1003, h571], ?_⟩,
    fun h60 => ⟨by simp [getTradeTime, h60], ?_⟩⟩
  · intro t h
    have := (decodeTradeMessage_ok_getters m t h).2.2.1
    rw [show getTradePrice m = .error "trade price not found" from by
      simp [getTradePrice, h270, h31]] at this
    simp [Except.isOk, Except.toBool] at this
  · intro t h
    have := (decodeTradeMessage_ok_getters m t h).2.2.2.1
    rw [show getTradeQuantity m = .error "trade quantity not found" from by
      simp [getTradeQuantity, h271, h32]] at this
    simp [Except.isOk, Except.toBool] at this
  · intro t h
    have := (decodeTradeMessage_ok_getters m t h).2.1
    rw [show getTradeID m = .error "trade ID not found" from by
      simp [getTradeID, h1003, h571]] at this
    simp [Except.isOk, Except.toBool] at this
  · intro t h
    have := (decodeTradeMessage_ok_getters m t h).2.2.2.2
    rw [show getTradeTime m = .error "trade time not found" from by
      simp [getTradeTime, h60]] at this
    simp [Except.isOk, Except.toBool] at this

/-- C4 witness: concrete trade ticks exercising the primary tag, the
fallback tag, and the both-absent / missing-time failures. -/
theorem decodeTradeMessage_fallbacks_witness :
    getTradePrice { body := [(55, "BTCUSDT"), (270, "7"), (31, "9")] } = parseFloatE "7" ∧
    getTradePrice { body := [(55, "BTCUSDT"), (31, "9")] } = parseFloatE "9" ∧
    getTradePrice { body := [(55, "BTCUSDT")] } = .error "trade price not found" ∧
    DecodeTradeMessage { body := [(55, "BTCUSDT")] } ≠
      .ok { Symbol := "BTCUSDT", TradeID := 0, Price := 0, Quantity := 0,
            TradeTime := "", BuyerOrderID := 0, SellerOrderID := 0,
            IsBuyerMaker := false } ∧
    getTradeQuantity { body := [(55, "BTCUSDT"), (32, "2")] } = parseFloatE "2" ∧
    getTradeID { body := [(55, "BTCUSDT"), (571, "42")] } = parseIntE "42" ∧
    getTradeTime { body := [(55, "BTCUSDT"), (270, "7"), (271, "2"), (1003, "42")] } =
      .error "trade time not found" :=
  ⟨(decodeTradeMessage_fallbacks { body := [(55, "BTCUSDT"), (270, "7"), (31, "9")] }).1 "7" rfl,
   (decodeTradeMessage_fallbacks { body := [(55, "BTCUSDT"), (31, "9")] }).2.1 "9" rfl rfl,
   ((decodeTradeMessage_fallbacks { body := [(55, "BTCUSDT")] }).2.2.1 rfl rfl).1,
   ((decodeTradeMessage_fallbacks { body := [(55, "BTCUSDT")] }).2.2.1 rfl rfl).2 _,
   (decodeTradeMessage_fallbacks { body := [(55, "BTCUSDT"), (32, "2")] }).2.2.2.2.1 "2" rfl rfl,
   (decodeTradeMessage_fallbacks { body := [(55, "BTCUSDT"), (571, "42")] }).2.2.2.2.2.2.2.1 "42" rfl rfl,
   ((decodeTradeMessage_fallbacks { body := [(55, "BTCUSDT"), (270, "7"), (271, "2"), (1003, "42")] }).2.2.2.2.2.2.2.2.2 rfl).1⟩

/-- C6: when the pending call's response has not arrived (done channel
empty) and the deadline has already elapsed (context done), the only
outcome `wait` can return is the context's deadline error — so it returns
the timeout error without blocking, and the call's eventual resolution is
discarded rather than delivered. -/
theorem wait_elapsed_deadline_only_timeout (resp : FixMessage) (ctxErr : String)
    (r : WaitRes) :
    waitCanReturn resp .empty true ctxErr r = true ↔ r = .err ctxErr := by
  simp [waitCanReturn]

/-- C6 witness: with the deadline elapsed and no response, the deadline
error is a possible outcome and a successful response is not. -/
theorem wait_elapsed_deadline_only_timeout_witness :
    waitCanReturn {} .empty true "context deadline exceeded"
      (.err "context deadline exceeded") = true ∧
    waitCanReturn {} .empty true "context deadline exceeded" (.ok {}) = false :=
  ⟨(wait_elapsed_deadline_only_timeout {} "context deadline exceeded" _).mpr rfl,
   Bool.eq_false_iff.mpr (fun hb =>
     absurd ((wait_elapsed_deadline_only_timeout {} "context deadline exceeded"
       (.ok {})).mp hb) (by simp))⟩

/-- C3: `GetLogonRawData` returns the base64 encoding of the Ed25519
signature over the payload `MsgType(Logon) SOH sender SOH target SOH "1"
SOH sendingTime`, and repeated invocations on fixed inputs return
byte-for-byte identical output. -/
theorem getLogonRawData_payload_deterministic
    (ed25519Sign : List Nat → String → List Nat) (privateKey : List Nat)
    (senderCompID targetCompID sendingTime : String) :
    GetLogonRawData ed25519Sign privateKey senderCompID targetCompID sendingTime =
      String.mk (base64StdEncode (ed25519Sign privateKey
        (MsgType_LOGON ++ (sohStr ++ (senderCompID ++ (sohStr ++ (targetCompID ++
          (sohStr ++ ("1" ++ (sohStr ++ sendingTime)))))))))) ∧
    GetLogonRawData ed25519Sign privateKey senderCompID targetCompID sendingTime =
      GetLogonRawData ed25519Sign privateKey senderCompID targetCompID sendingTime := by
  refine ⟨?_, rfl⟩
  simp only [GetLogonRawData, stringsJoin, List.foldl, String.append_assoc]

/-- C5 counterexample: a news message whose lower-cased headline contains
the keyword `"reconnect"` (but no `"maintenance"`, and with an empty body)
publishes nothing, even on a market-data session — the claim requires a
maintenance event. The code only matches `"reconnect"` against the body
text, not the headline. -/
theorem handleNewsMessage_headline_reconnect_ignored :
    goContains (goToLower "Please reconnect soon") "reconnect" = true ∧
    handleNewsMessage "BMDWATCH" { body := [(148, "Please reconnect soon")] } = [] :=
  ⟨by decide, by decide⟩

/-- C5 (amended): a maintenance event carrying the headline and body is
published exactly when the lower-cased headline contains `"maintenance"`,
or the lower-cased body text contains `"maintenance"` or `"reconnect"`
(the keyword `"reconnect"` is not consulted in the headline); the
reconnect-needed event is additionally published if and only if that
condition holds and the session identity indicates the market-data role
(sender id containing `"BMD"`). -/
theorem handleNewsMessage_amended (sender : String) (m : FixMessage) :
    (NewsEvent.maintenance ((fmGet m.body tagHeadline).getD "")
        ((fmGet m.body tagText).getD "") ∈ handleNewsMessage sender m ↔
      (goContains (goToLower ((fmGet m.body tagHeadline).getD "")) "maintenance" ||
       goContains (goToLower ((fmGet m.body tagText).getD "")) "maintenance" ||
       goContains (goToLower ((fmGet m.body tagText).getD "")) "reconnect") = true) ∧
    (NewsEvent.reconnectNeeded ∈ handleNewsMessage sender m ↔
      ((goContains (goToLower ((fmGet m.body tagHeadline).getD "")) "maintenance" ||
        goContains (goToLower ((fmGet m.body tagText).getD "")) "maintenance" ||
        goContains (goToLower ((fmGet m.body tagText).getD "")) "reconnect") = true ∧
       goContains sender "BMD" = true)) ∧
    (∀ h t, NewsEvent.maintenance h t ∈ handleNewsMessage sender m →
      h = (fmGet m.body tagHeadline).getD "" ∧ t = (fmGet m.body tagText).getD "") := by
  cases hc : (goContains (goToLower ((fmGet m.body tagHeadline).getD "")) "maintenance" ||
      goContains (goToLower ((fmGet m.body tagText).getD "")) "maintenance" ||
      goContains (goToLower ((fmGet m.body tagText).getD "")) "reconnect") <;>
    cases hb : goContains sender "BMD" <;>
    simp [handleNewsMessage, hc, hb]

/-- C5 witness: the spec scenario — body "Scheduled maintenance, please
reconnect" publishes maintenance (and reconnect-needed only on the
market-data identity "BMDWATCH", not on "BOETRADE"). -/
theorem handleNewsMessage_amended_witness :
    NewsEvent.maintenance "" "Scheduled maintenance, please reconnect" ∈
      handleNewsMessage "BMDWATCH"
        { body := [(58, "Scheduled maintenance, please reconnect")] } ∧
    NewsEvent.reconnectNeeded ∈
      handleNewsMessage "BMDWATCH"
        { body := [(58, "Scheduled maintenance, please reconnect")] } ∧
    NewsEvent.reconnectNeeded ∉
      handleNewsMessage "BOETRADE"
        { body := [(58, "Scheduled maintenance, please reconnect")] } :=
  ⟨(handleNewsMessage_amended "BMDWATCH"
      { body := [(58, "Scheduled maintenance, please reconnect")] }).1.mpr (by decide),
   (handleNewsMessage_amended "BMDWATCH"
      { body := [(58, "Scheduled maintenance, please reconnect")] }).2.1.mpr
     ⟨by decide, by decide⟩,
   fun h => by
     have := (handleNewsMessage_amended "BOETRADE"
       { body := [(58, "Scheduled maintenance, please reconnect")] }).2.1.mp h
     exact absurd this.2 (by decide)⟩

/-- A concrete client state (the order-entry identity) with a chosen
connection flag and pending map, for the concrete `send` scenarios. -/
def sampleState (conn : Bool) (p : String → Option Call) : ClientState :=
  { isConnected := conn, pending := p, beginString := "FIX.4.4",
    targetCompID := "SPOT", senderCompID := "BOETRADE" }

/-- The pending map holding one outstanding call under id "1". -/
def pendingOne : String → Option Call :=
  fun k => if k = "1" then some { request := {} } else none

/-- C2 counterexample: when the id is already outstanding, a failing
`send` does change the pending-call map — the registration overwrote the
old entry and the rollback deletes both, so the original entry under the
id is lost. -/
theorem send_failing_overwrite_changes_pending :
    (send (sampleState true pendingOne) "1" {} "20240101-00:00:00.000"
      (fun _ => some "transport refused")).2.pending ≠ pendingOne := by
  intro h
  have h1 := congrFun h "1"
  simp [send, sampleState, pendingOne, mapErase, mapInsert] at h1

/-- C2 (amended): `send` on an unauthorized connection fails with the
connection-closed error and leaves the client state (hence the pending-call
map) unchanged, registering nothing; a `send` whose transmission fails
returns that error with no entry left under the id, and — whenever the id
was not already outstanding — the pending-call map is unchanged. -/
theorem send_no_leak (c : ClientState) (id : String) (m : FixMessage)
    (now : String) (transmit : FixMessage → Option String) :
    (c.isConnected = false → send c id m now transmit = (.error ErrClosed, c)) ∧
    (∀ e, c.isConnected = true → transmit (addCommonHeaders c now m) = some e →
      (send c id m now transmit).1 = .error e ∧
      (send c id m now transmit).2.pending id = none ∧
      (c.pending id = none → (send c id m now transmit).2.pending = c.pending)) := by
  constructor
  · intro h
    simp [send, h]
  · intro e hc ht
    refine ⟨by simp [send, hc, ht], by simp [send, hc, ht, mapErase], ?_⟩
    intro hp
    funext k
    by_cases hk : k = id
    · subst hk
      simp [send, hc, ht, mapErase, hp]
    · simp [send, hc, ht, mapErase, mapInsert, hk]

/-- C2 witness: on a connected client with no outstanding call under "7",
a send whose transmission fails returns that error, leaves nothing under
"7", and leaves the pending map unchanged; the same client with the
connection flag cleared fails with the connection-closed error and an
untouched state. -/
theorem send_no_leak_witness :
    send (sampleState false (fun _ => none)) "7" {} "20240101-00:00:00.000"
      (fun _ => some "refused") =
      (.error ErrClosed, sampleState false (fun _ => none)) ∧
    (send (sampleState true (fun _ => none)) "7" {} "20240101-00:00:00.000"
      (fun _ => some "refused")).1 = .error "refused" ∧
    (send (sampleState true (fun _ => none)) "7" {} "20240101-00:00:00.000"
      (fun _ => some "refused")).2.pending "7" = none ∧
    (send (sampleState true (fun _ => none)) "7" {} "20240101-00:00:00.000"
      (fun _ => some "refused")).2.pending = (sampleState true (fun _ => none)).pending :=
  ⟨(send_no_leak (sampleState false (fun _ => none)) "7" {} "20240101-00:00:00.000"
      (fun _ => some "refused")).1 rfl,
   ((send_no_leak (sampleState true (fun _ => none)) "7" {} "20240101-00:00:00.000"
      (fun _ => some "refused")).2 "refused" rfl rfl).1,
   ((send_no_leak (sampleState true (fun _ => none)) "7" {} "20240101-00:00:00.000"
      (fun _ => some "refused")).2 "refused" rfl rfl).2.1,
   ((send_no_leak (sampleState true (fun _ => none)) "7" {} "20240101-00:00:00.000"
      (fun _ => some "refused")).2 "refused" rfl rfl).2.2 rfl⟩

/-- The symbol list survives the map into one-field group instances
(helper for the subscription round-trip). -/
theorem collectSymbols_map (symbols : List String) :
    collectSymbols (symbols.map (fun s => ({ fields := [(55, s)] } : FixGroup))) =
      some symbols := by
  induction symbols with
  | nil => rfl
  | cons s rest ih => simp [collectSymbols, fmGet, tagSymbol, ih]

/-- C7: `SubscribeToTrades` places the requested symbols into the repeated
tag-146 symbol group in input order, so decoding the symbol group of the
built message yields exactly the input list; in particular
`["BTCUSDT", "ETHUSDT"]` round-trips unchanged. -/
theorem subscribeToTrades_symbol_roundtrip (nowNano : Int) (symbols : List String) :
    decodeSymbolGroup (subscribeToTradesMessage nowNano symbols) = some symbols ∧
    decodeSymbolGroup (subscribeToTradesMessage nowNano ["BTCUSDT", "ETHUSDT"]) =
      some ["BTCUSDT", "ETHUSDT"] := by
  constructor
  · simp [decodeSymbolGroup, subscribeToTradesMessage, groupsGet, groupsSet,
      tagNoRelatedSym, tagNoMDEntryTypes, tagSymbol]
    exact collectSymbols_map symbols
  · simp [decodeSymbolGroup, subscribeToTradesMessage, groupsGet, groupsSet,
      tagNoRelatedSym, tagNoMDEntryTypes, tagSymbol, collectSymbols, fmGet]

/-- `SendWithoutResponse` never changes the client state (helper for the
subscription frame property). -/
theorem sendWithoutResponse_state (c : ClientState) (m : FixMessage) (now : String)
    (transmit : FixMessage → Option String) :
    (SendWithoutResponse c m now transmit).2 = c := by
  unfold SendWithoutResponse
  split
  · rfl
  · split <;> rfl

/-- C9: subscribing or unsubscribing to trades is fire-and-forget — it
registers no pending call and leaves the whole client state (in particular
the pending-call map) unchanged, whatever the symbols and the transmission
outcome. -/
theorem subscribeToTrades_frame (c : ClientState) (nowNano : Int)
    (symbols : List String) (now : String) (transmit : FixMessage → Option String) :
    (SubscribeToTrades c nowNano symbols now transmit).2 = c ∧
    (SubscribeToTrades c nowNano symbols now transmit).2.pending = c.pending ∧
    (UnsubscribeFromTrades c nowNano symbols now transmit).2 = c ∧
    (UnsubscribeFromTrades c nowNano symbols now transmit).2.pending = c.pending := by
  have hs := sendWithoutResponse_state c (subscribeToTradesMessage nowNano symbols)
    now transmit
  have hu := sendWithoutResponse_state c (unsubscribeFromTradesMessage nowNano symbols)
    now transmit
  exact ⟨hs, congrArg ClientState.pending hs, hu, congrArg ClientState.pending hu⟩

end BinanceFix
